import Mathlib

/-!
# AR pose-tracking overlay pipeline: a shallow embedding

This file embeds the core of the AR camera application — the detection
loop (`detectPoses` in useARCamera.ts), the frame compositor's letterbox
computation, the tracking-point renderer (`drawTrackingPoints`), the
session toggle (`toggleAR`), the overlay asset loader (`tryLoadModel` /
`createPlaceholder` in the ARGlasses component) and the
keypoint-to-transform mapper (the transform-update effect of the revised
ARGlasses component) — and proves the spec's claims about them.

Numbers that the source manipulates exactly (pixel coordinates,
confidence scores, canvas sizes) are embedded as rationals; the two
transcendental results of the mapper (`Math.atan2`, `Math.sqrt`) live in
`ℝ`.  An optional JavaScript field (`score?: number`) is an `Option ℚ`,
and its JavaScript truthiness test is made explicit.
-/

namespace ARPose

/-- JavaScript truthiness of an optional numeric field: `undefined` and
`0` are falsy, every other number is truthy. -/
def truthy : Option ℚ → Bool
  | none => false
  | some v => decide (v ≠ 0)

/-- `s > t` as JavaScript evaluates it on an optional number: comparing
`undefined` yields false. -/
def scoreGt (s : Option ℚ) (t : ℚ) : Bool :=
  match s with
  | none => false
  | some v => decide (t < v)

/-- A detector keypoint: `{ name, x, y, score?: number }`. Coordinates
are in source-video pixel space. -/
structure Keypoint where
  name : String
  x : ℚ
  y : ℚ
  score : Option ℚ
deriving DecidableEq

/-- A detected pose: the keypoint list for one subject. -/
structure Pose where
  keypoints : List Keypoint
  score : Option ℚ
deriving DecidableEq

/-- `keypoints.find(point => point.name === n)`. -/
def findKp (kps : List Keypoint) (n : String) : Option Keypoint :=
  kps.find? (fun kp => kp.name == n)

/-! ## Frame compositor (useARCamera.ts, detectPoses lines 94-108) -/

/-- The letterboxed placement of the source video inside the destination
canvas. -/
@[ext] structure FrameGeometry where
  drawWidth : ℚ
  drawHeight : ℚ
  offsetX : ℚ
  offsetY : ℚ
deriving DecidableEq

/-- The aspect-ratio-preserving placement computed inside `detectPoses`:
start from the full canvas, then shrink one dimension and center it. -/
def computeFrameGeometry (srcW srcH dstW dstH : ℚ) : FrameGeometry :=
  let videoAspect := srcW / srcH
  let canvasAspect := dstW / dstH
  if canvasAspect < videoAspect then
    { drawWidth := dstW, drawHeight := dstW / videoAspect,
      offsetX := 0, offsetY := (dstH - dstW / videoAspect) / 2 }
  else
    { drawWidth := dstH * videoAspect, drawHeight := dstH,
      offsetX := (dstW - dstH * videoAspect) / 2, offsetY := 0 }

/-! ## Tracking-point renderer (useARCamera.ts, drawTrackingPoints) -/

/-- The fixed skeleton topology of `drawTrackingPoints`. -/
def connections : List (String × String) :=
  [("nose", "left_eye"), ("nose", "right_eye"),
   ("left_eye", "left_ear"), ("right_eye", "right_ear"),
   ("left_shoulder", "right_shoulder"),
   ("left_shoulder", "left_elbow"), ("left_elbow", "left_wrist"),
   ("right_shoulder", "right_elbow"), ("right_elbow", "right_wrist"),
   ("left_shoulder", "left_hip"), ("right_shoulder", "right_hip"),
   ("left_hip", "right_hip"),
   ("left_hip", "left_knee"), ("left_knee", "left_ankle"),
   ("right_hip", "right_knee"), ("right_knee", "right_ankle")]

/-- Whether `drawTrackingPoints` draws the segment for one joint pair:
`fromPoint && toPoint && fromPoint.score && toPoint.score &&
fromPoint.score > 0.2 && toPoint.score > 0.2`. -/
def drawsConnection (kps : List Keypoint) (c : String × String) : Bool :=
  match findKp kps c.1, findKp kps c.2 with
  | some fromPoint, some toPoint =>
      truthy fromPoint.score && truthy toPoint.score &&
      scoreGt fromPoint.score (1/5) && scoreGt toPoint.score (1/5)
  | _, _ => false

/-- The joint pairs for which a segment is drawn, in topology order. -/
def drawnConnections (kps : List Keypoint) : List (String × String) :=
  connections.filter (drawsConnection kps)

/-- The keypoints for which a marker dot is drawn:
`keypoint.score && keypoint.score > 0.2`. -/
def drawnMarkers (kps : List Keypoint) : List Keypoint :=
  kps.filter (fun kp => truthy kp.score && scoreGt kp.score (1/5))

/-! ## Session state and toggle (useARCamera.ts) -/

/-- The hook's state record (`ARCameraState` in the source). -/
@[ext] structure ARCameraState where
  isARActive : Bool
  isModelLoading : Bool
  modelLoadError : Option String
  detectedPoses : List Pose
  isPersonDetected : Bool
  canvasWidth : ℚ
  canvasHeight : ℚ
  showTrackingPoints : Bool
deriving DecidableEq

/-- The hook's initial state (useARCamera.ts lines 17-26). -/
def initialARState : ARCameraState :=
  { isARActive := false, isModelLoading := false, modelLoadError := none,
    detectedPoses := [], isPersonDetected := false,
    canvasWidth := 640, canvasHeight := 480, showTrackingPoints := true }

/-- The session: the hook state together with the scheduled-callback
handle (`requestAnimationFrameRef`). -/
@[ext] structure Session where
  ar : ARCameraState
  raf : Option Nat
deriving DecidableEq

/-- A session that has never been started. -/
def idleSession : Session := { ar := initialARState, raf := none }

/-- The state update of `toggleAR`'s stop branch (lines 202-211): cancel
the scheduled callback, deactivate, clear the poses and the
person-detected flag. -/
def stopARUpdate (s : Session) : Session :=
  { raf := none,
    ar := { s.ar with isARActive := false, detectedPoses := [],
                      isPersonDetected := false } }

/-- The synchronous effect of `toggleAR`: the stop branch when the
session is active; otherwise `initializeARModel()`, whose synchronous
prefix returns at once without a video element and otherwise marks the
model as loading and clears the previous load error. -/
def toggleAR (videoPresent : Bool) (s : Session) : Session :=
  if s.ar.isARActive then
    stopARUpdate s
  else
    if videoPresent then
      { s with ar := { s.ar with isModelLoading := true, modelLoadError := none } }
    else s

/-! ## Detection loop tick (useARCamera.ts, detectPoses) -/

/-- What the tick reads off the video element. -/
structure Video where
  readyState : Nat
  videoWidth : ℚ
  videoHeight : ℚ
deriving DecidableEq

/-- What the tick reads off the compositing canvas; `hasCtx` is whether
`getContext('2d')` returned a context. -/
structure Canvas where
  width : ℚ
  height : ℚ
  hasCtx : Bool
deriving DecidableEq

/-- How the awaited `estimatePoses` call settles. -/
inductive DetectOutcome where
  | ok (poses : List Pose)
  | err
deriving DecidableEq

/-- The environment one `detectPoses` invocation runs against. -/
structure TickInput where
  detector : Bool
  video : Option Video
  canvas : Option Canvas
  outcome : DetectOutcome
deriving DecidableEq

/-- What one `detectPoses` invocation did: how many next ticks it
scheduled, whether it invoked the detector, the frame placement it drew
with (if it drew), whether it drew tracking points, and the hook state
it left behind. -/
structure TickResult where
  rescheduled : Nat
  invokedDetector : Bool
  drewFrame : Option FrameGeometry
  drewTracking : Bool
  state : ARCameraState
deriving DecidableEq

/-- The precondition line of `detectPoses`:
`!detectorRef.current || !videoRef.current || !videoRef.current.readyState
 || !canvasRef.current` (negated). -/
def preconditionsOk (inp : TickInput) : Bool :=
  inp.detector &&
    (match inp.video with
     | some v => decide (v.readyState ≠ 0)
     | none => false) &&
    inp.canvas.isSome

/-- One invocation of `detectPoses`, as a pure function of its
environment and the previous hook state. Every branch of the source
reschedules exactly once; only a settled `estimatePoses` success writes
the hook state. -/
def detectPoses (inp : TickInput) (st : ARCameraState) : TickResult :=
  match inp.video, inp.canvas with
  | some v, some c =>
    if inp.detector && decide (v.readyState ≠ 0) then
      let geom : Option FrameGeometry :=
        if c.hasCtx then
          some (computeFrameGeometry v.videoWidth v.videoHeight c.width c.height)
        else none
      match inp.outcome with
      | .ok poses =>
          { rescheduled := 1, invokedDetector := true, drewFrame := geom,
            drewTracking := c.hasCtx && decide (0 < poses.length) &&
                            st.showTrackingPoints,
            state := { st with detectedPoses := poses,
                               isPersonDetected := decide (0 < poses.length) } }
      | .err =>
          { rescheduled := 1, invokedDetector := true, drewFrame := geom,
            drewTracking := false, state := st }
    else
      { rescheduled := 1, invokedDetector := false, drewFrame := none,
        drewTracking := false, state := st }
  | _, _ =>
      { rescheduled := 1, invokedDetector := false, drewFrame := none,
        drewTracking := false, state := st }

/-! ## The loop/stop interleaving (useARCamera.ts, detectPoses + toggleAR)

`detectPoses` is async: after its precondition check it awaits
`estimatePoses`, and its continuation (both the success path and the
catch) calls `requestAnimationFrame(detectPoses)` again with no check of
`isARActive`.  `toggleAR`'s stop branch synchronously cancels the
currently scheduled callback.  The labelled transition system below has
exactly those moves; the label of a tick records whether the session was
still active when the tick ran. -/

/-- Scheduler-visible session state: whether the session is active,
whether a `requestAnimationFrame` callback is pending, and whether an
`estimatePoses` promise is in flight. -/
structure LoopState where
  active : Bool
  scheduled : Bool
  inFlight : Bool
deriving DecidableEq

/-- Observable events of the loop. -/
inductive LoopLabel where
  | tick (activeWhenRun : Bool)
  | settle
  | stop
deriving DecidableEq

/-- One step of the loop/stop system, read off the source:
* `fireWait` — the scheduled callback runs, a precondition fails, and the
  tick immediately reschedules itself (lines 85-88);
* `fireDetect` — the scheduled callback runs, preconditions hold, and the
  tick starts the awaited `estimatePoses` call (lines 119-123);
* `settle` — the in-flight call settles (success or failure) and the
  continuation reschedules the tick, with no check of `isARActive`
  (lines 137 and 140);
* `stop` — `toggleAR` on an active session synchronously cancels the
  pending scheduled callback and deactivates (lines 201-211); it cannot
  affect a call already in flight. -/
inductive LoopStep : LoopState → LoopLabel → LoopState → Prop where
  | fireWait (s : LoopState) (h : s.scheduled = true) :
      LoopStep s (.tick s.active) { s with scheduled := true }
  | fireDetect (s : LoopState) (h : s.scheduled = true) :
      LoopStep s (.tick s.active) { s with scheduled := false, inFlight := true }
  | settle (s : LoopState) (h : s.inFlight = true) :
      LoopStep s .settle { s with inFlight := false, scheduled := true }
  | stop (s : LoopState) (h : s.active = true) :
      LoopStep s .stop { active := false, scheduled := false, inFlight := s.inFlight }

/-- A finite run of the loop/stop system with its emitted labels. -/
inductive LoopTrace : LoopState → List LoopLabel → LoopState → Prop where
  | nil (s : LoopState) : LoopTrace s [] s
  | cons {s s' s'' : LoopState} {l : LoopLabel} {ls : List LoopLabel}
      (hstep : LoopStep s l s') (htail : LoopTrace s' ls s'') :
      LoopTrace s (l :: ls) s''

/-- The state right after a successful activation: active, with the
first tick scheduled by `startPoseDetection` and nothing in flight. -/
def activatedLoopState : LoopState :=
  { active := true, scheduled := true, inFlight := false }

/-! ## Overlay asset loader (ARGlasses, tryLoadModel / createPlaceholder) -/

/-- A piece of the procedural placeholder: a torus (lens ring) at a
horizontal offset, or the box bridge. -/
inductive PlaceholderPart where
  | torus (xPos : ℚ)
  | box
deriving DecidableEq

/-- `createPlaceholder`: left lens ring at x = -0.4, right lens ring at
x = 0.4, and the connecting bridge bar. -/
def createPlaceholder : List PlaceholderPart :=
  [.torus (-(2/5)), .torus (2/5), .box]

/-- The warning `tryLoadModel` surfaces when every candidate failed. -/
def placeholderWarning : String :=
  "Glasses model could not be loaded - using placeholder"

/-- The terminal result of the asset loader. -/
inductive AssetResult where
  | loaded (path : String)
  | placeholder (parts : List PlaceholderPart)
deriving DecidableEq

/-- The loader's outcome: every path it attempted, in order, the adopted
asset, and the surfaced warning if any. -/
structure AssetLoadState where
  attemptedPaths : List String
  result : AssetResult
  loadError : Option String
deriving DecidableEq

/-- `tryLoadModel`, over the candidate list paired with each candidate's
load outcome: attempt the head; on success adopt it and stop; on failure
recurse on the tail; past the end, warn and build the placeholder. -/
def tryLoadModel : List (String × Bool) → AssetLoadState
  | [] =>
      { attemptedPaths := [], result := .placeholder createPlaceholder,
        loadError := some placeholderWarning }
  | (p, ok) :: rest =>
      if ok then
        { attemptedPaths := [p], result := .loaded p, loadError := none }
      else
        let s := tryLoadModel rest
        { attemptedPaths := p :: s.attemptedPaths, result := s.result,
          loadError := s.loadError }

/-! ## Keypoint-to-transform mapper (revised ARGlasses, lines 169-204) -/

/-- `Math.atan2 y x`: the angle of the point `(x, y)`, in `(-π, π]`. -/
noncomputable def atan2 (y x : ℝ) : ℝ := Complex.arg ⟨x, y⟩

/-- The horizontal fit constant: the source's literal `2.5`. -/
def K_X : ℚ := 5/2

/-- The vertical fit constant: the source's literal `2`. -/
def K_Y : ℚ := 2

/-- The scale calibration constant: the source's literal `150`. -/
def K_SCALE : ℚ := 150

/-- The overlay's rigid transform: position, in-plane rotation, uniform
scale. -/
@[ext] structure OverlayTransform where
  x : ℚ
  y : ℚ
  z : ℚ
  rotationZ : ℝ
  scale : ℝ

/-- The transform-update effect of the revised ARGlasses component: if
the keypoint list is empty nothing happens; otherwise look up
`left_eye`, `right_eye` and `nose`, and only when all three are present
with truthy scores and both eye scores exceed 0.5 replace the transform
by the one computed from the eye midpoint, the eye angle and the
interocular distance; in every other case the previous transform is
kept. -/
noncomputable def updateGlassesTransform (kps : List Keypoint)
    (canvasWidth canvasHeight : ℚ) (t : OverlayTransform) : OverlayTransform :=
  if kps.length = 0 then t
  else
    match findKp kps "left_eye", findKp kps "right_eye", findKp kps "nose" with
    | some leftEye, some rightEye, some nose =>
        if truthy leftEye.score && truthy rightEye.score && truthy nose.score &&
           scoreGt leftEye.score (1/2) && scoreGt rightEye.score (1/2) then
          let centerX := (leftEye.x + rightEye.x) / 2
          let centerY := (leftEye.y + rightEye.y) / 2
          { x := ((centerX / canvasWidth) * 2 - 1) * K_X,
            y := (-(centerY / canvasHeight) * 2 + 1) * K_Y,
            z := 0,
            rotationZ := atan2 ((rightEye.y : ℝ) - (leftEye.y : ℝ))
                               ((rightEye.x : ℝ) - (leftEye.x : ℝ)),
            scale := Real.sqrt (((rightEye.x : ℝ) - (leftEye.x : ℝ)) ^ 2 +
                                ((rightEye.y : ℝ) - (leftEye.y : ℝ)) ^ 2) /
                     (K_SCALE : ℝ) }
        else t
    | _, _, _ => t

/-! ## Helper lemmas -/

lemma truthy_of_scoreGt_half (s : Option ℚ) (h : scoreGt s (1/2) = true) :
    truthy s = true := by
  cases s with
  | none => simp [scoreGt] at h
  | some v =>
      simp only [scoreGt, decide_eq_true_eq] at h
      simp only [truthy, decide_eq_true_eq]
      exact ne_of_gt (by linarith)

lemma findKp_ne_nil {kps : List Keypoint} {n : String} {k : Keypoint}
    (h : findKp kps n = some k) : kps.length ≠ 0 := by
  cases kps with
  | nil => simp [findKp] at h
  | cons a l => simp

/-- A sufficient condition for the mapper to keep the previous
transform: whenever all three joints are found, the confidence
conjunction is false. -/
lemma updateGlassesTransform_noop (kps : List Keypoint) (w h : ℚ)
    (t : OverlayTransform)
    (hgate : ∀ l r n : Keypoint, findKp kps "left_eye" = some l →
      findKp kps "right_eye" = some r → findKp kps "nose" = some n →
      (truthy l.score && truthy r.score && truthy n.score &&
       scoreGt l.score (1/2) && scoreGt r.score (1/2)) = false) :
    updateGlassesTransform kps w h t = t := by
  simp only [updateGlassesTransform]
  split
  · rfl
  · split
    · next l r n hl hr hn =>
        rw [hgate l r n hl hr hn]
        simp
    · rfl

/-! ## C2: frame compositor letterbox computation -/

/-- C2: with positive source and destination dimensions, the letterbox
computation fills the destination width (with vertical bars) when the
source aspect exceeds the destination aspect, and fills the destination
height (with horizontal bars) otherwise, centering the free axis. -/
theorem computeFrameGeometry_spec (srcW srcH dstW dstH : ℚ)
    (hsw : 0 < srcW) (hsh : 0 < srcH) (hdw : 0 < dstW) (hdh : 0 < dstH) :
    (dstW / dstH < srcW / srcH →
      computeFrameGeometry srcW srcH dstW dstH =
        { drawWidth := dstW, drawHeight := dstW / (srcW / srcH),
          offsetX := 0, offsetY := (dstH - dstW / (srcW / srcH)) / 2 }) ∧
    (¬ dstW / dstH < srcW / srcH →
      computeFrameGeometry srcW srcH dstW dstH =
        { drawWidth := dstH * (srcW / srcH), drawHeight := dstH,
          offsetX := (dstW - dstH * (srcW / srcH)) / 2, offsetY := 0 }) := by
  constructor <;> intro hcmp <;> simp [computeFrameGeometry, hcmp]

/-- C2 witness: a 1280x720 source into a 640x480 destination is drawn
640x360 with a 60-pixel top offset and no horizontal offset. -/
theorem computeFrameGeometry_example :
    computeFrameGeometry 1280 720 640 480 =
      { drawWidth := 640, drawHeight := 360, offsetX := 0, offsetY := 60 } := by
  have h := (computeFrameGeometry_spec 1280 720 640 480 (by norm_num)
    (by norm_num) (by norm_num) (by norm_num)).1 (by norm_num)
  rw [h]
  simp only [FrameGeometry.mk.injEq]
  norm_num

/-! ## C8: overlay asset loader fallback chain -/

/-- C8: when every candidate fails, the loader attempts each candidate
exactly once in list order, then adopts the procedural placeholder (two
ring shapes plus a connecting bar) and surfaces the non-fatal warning;
when some candidate succeeds, it is adopted and no later candidate is
attempted. -/
theorem tryLoadModel_spec :
    (∀ cands : List (String × Bool), (∀ x ∈ cands, x.2 = false) →
        tryLoadModel cands =
          { attemptedPaths := cands.map Prod.fst,
            result := .placeholder createPlaceholder,
            loadError := some placeholderWarning }) ∧
    (∀ (pre : List (String × Bool)) (p : String × Bool)
        (post : List (String × Bool)),
        (∀ x ∈ pre, x.2 = false) → p.2 = true →
        tryLoadModel (pre ++ p :: post) =
          { attemptedPaths := pre.map Prod.fst ++ [p.1],
            result := .loaded p.1, loadError := none }) ∧
    (∃ r1 r2 : ℚ, createPlaceholder =
        [.torus r1, .torus r2, .box]) := by
  refine ⟨?_, ?_, ⟨-(2/5), 2/5, rfl⟩⟩
  · intro cands hall
    induction cands with
    | nil => rfl
    | cons hd tl ih =>
        obtain ⟨p, ok⟩ := hd
        have hok : ok = false := hall (p, ok) (List.mem_cons_self _ _)
        subst hok
        have htl := ih (fun x hx => hall x (List.mem_cons_of_mem _ hx))
        simp [tryLoadModel, htl]
  · intro pre p post hpre hp
    induction pre with
    | nil =>
        obtain ⟨p1, p2⟩ := p
        simp only at hp
        subst hp
        simp [tryLoadModel]
    | cons hd tl ih =>
        obtain ⟨q, qok⟩ := hd
        have hq : qok = false := hpre (q, qok) (List.mem_cons_self _ _)
        subst hq
        have htl := ih (fun x hx => hpre x (List.mem_cons_of_mem _ hx))
        simp [tryLoadModel, htl]

/-! ## C9: tracking-point skeleton connections -/

lemma drawsConnection_eq_true_iff (kps : List Keypoint) (c : String × String) :
    drawsConnection kps c = true ↔
      ∃ f t : Keypoint, findKp kps c.1 = some f ∧ findKp kps c.2 = some t ∧
        ∃ fs ts : ℚ, f.score = some fs ∧ t.score = some ts ∧
          1/5 < fs ∧ 1/5 < ts := by
  unfold drawsConnection
  cases hf : findKp kps c.1 with
  | none => simp
  | some f =>
      cases ht : findKp kps c.2 with
      | none => simp
      | some t =>
          cases hfs : f.score with
          | none => simp [truthy, hfs]
          | some fs =>
              cases hts : t.score with
              | none => simp [truthy, hfs, hts]
              | some ts =>
                  simp only [truthy, scoreGt, hfs, hts, Bool.and_eq_true,
                    decide_eq_true_eq, Option.some.injEq]
                  constructor
                  · rintro ⟨⟨⟨hne1, hne2⟩, h3⟩, h4⟩
                    exact ⟨f, t, rfl, rfl, fs, ts, hfs, hts, h3, h4⟩
                  · rintro ⟨f', t', hff, htt, fs', ts', hfs', hts', h1, h2⟩
                    subst hff
                    subst htt
                    rw [hfs] at hfs'
                    rw [hts] at hts'
                    injection hfs' with hfe
                    injection hts' with hte
                    subst hfe
                    subst hte
                    exact ⟨⟨⟨ne_of_gt (by linarith), ne_of_gt (by linarith)⟩,
                      h1⟩, h2⟩

/-- C9: the tracking-point renderer draws a segment for a joint pair
exactly when the pair is in the fixed skeleton list and both endpoint
keypoints are found with individual scores strictly above 0.2; an
endpoint at or below 0.2 suppresses the segment no matter the other
endpoint's score. -/
theorem drawTrackingPoints_connection_iff (kps : List Keypoint)
    (c : String × String) :
    c ∈ drawnConnections kps ↔
      c ∈ connections ∧
      ∃ f t : Keypoint, findKp kps c.1 = some f ∧ findKp kps c.2 = some t ∧
        ∃ fs ts : ℚ, f.score = some fs ∧ t.score = some ts ∧
          1/5 < fs ∧ 1/5 < ts := by
  rw [drawnConnections, List.mem_filter, drawsConnection_eq_true_iff]

/-! ## C5: stop and the exposed toggle -/

/-- C5 counterexample: the exposed operation is a toggle, not a stop —
invoked on the never-started idle session (with a video element
present) it begins model loading, so the session state changes. -/
theorem toggleAR_idle_not_noop : toggleAR true idleSession ≠ idleSession := by
  intro hEq
  have hml := congrArg (fun s => s.ar.isModelLoading) hEq
  simp [toggleAR, idleSession, initialARState, stopARUpdate] at hml

/-- C5 (amended): the stop behaviour itself is idempotent — the state
update of `toggleAR`'s stop branch applied twice equals it applied
once, `toggleAR` on an active session performs exactly that update
(whether or not a video element is present), and the update is a no-op
on a session already in stopped shape. -/
theorem stopARUpdate_idempotent :
    (∀ s : Session, stopARUpdate (stopARUpdate s) = stopARUpdate s) ∧
    (∀ (vp : Bool) (s : Session), s.ar.isARActive = true →
        toggleAR vp s = stopARUpdate s) ∧
    (∀ s : Session, s.raf = none → s.ar.isARActive = false →
        s.ar.detectedPoses = [] → s.ar.isPersonDetected = false →
        stopARUpdate s = s) := by
  refine ⟨fun s => rfl, fun vp s hact => by simp [toggleAR, hact], ?_⟩
  intro s h1 h2 h3 h4
  obtain ⟨⟨a, b, c, d, e, f, g, i⟩, raf⟩ := s
  simp only at h1 h2 h3 h4
  subst h1 h2 h3 h4
  rfl

/-! ## C4: a tick can execute after stop -/

/-- C4 (refuting trace): from the freshly activated loop state, the
scheduled tick fires and starts the awaited detector call; `toggleAR`
stops the session while that call is in flight; the call then settles
and its continuation reschedules unconditionally; the rescheduled tick
fires with the session no longer active.  The third label's successor
tick carries `activeWhenRun = false`: a tick executes after the state
left Active. -/
theorem detection_tick_after_stop :
    LoopTrace activatedLoopState
      [LoopLabel.tick true, LoopLabel.stop, LoopLabel.settle,
       LoopLabel.tick false]
      { active := false, scheduled := false, inFlight := true } := by
  refine .cons (LoopStep.fireDetect activatedLoopState rfl) ?_
  refine .cons (LoopStep.stop _ rfl) ?_
  refine .cons (LoopStep.settle _ rfl) ?_
  exact .cons (LoopStep.fireDetect _ rfl) (.nil _)

/-! ## C6: every tick reschedules exactly once -/

/-- C6: every invocation of the tick schedules exactly one next tick;
when a precondition fails it reschedules without invoking the detector,
without drawing and without touching the hook state; and when the
detector invocation fails the hook state is also untouched. -/
theorem detectPoses_always_reschedules (inp : TickInput) (st : ARCameraState) :
    (detectPoses inp st).rescheduled = 1 ∧
    (preconditionsOk inp = false →
      (detectPoses inp st).invokedDetector = false ∧
      (detectPoses inp st).drewFrame = none ∧
      (detectPoses inp st).state = st) ∧
    (inp.outcome = DetectOutcome.err → (detectPoses inp st).state = st) := by
  obtain ⟨d, v, c, o⟩ := inp
  cases v with
  | none => cases c <;> simp [detectPoses]
  | some v =>
      cases c with
      | none => simp [detectPoses]
      | some c =>
          cases d with
          | false => simp [detectPoses, preconditionsOk]
          | true =>
              by_cases hr : v.readyState = 0
              · simp [detectPoses, preconditionsOk, hr]
              · cases o <;> simp [detectPoses, preconditionsOk, hr]

/-! ## C7: isPersonDetected equals (pose count > 0) -/

/-- C7: after a tick whose preconditions hold and whose detector call
succeeds, the stored flag `isPersonDetected` is exactly whether the
returned pose list is non-empty, and the returned poses are stored. -/
theorem detectPoses_isPersonDetected (inp : TickInput) (st : ARCameraState)
    (v : Video) (c : Canvas) (poses : List Pose)
    (hv : inp.video = some v) (hc : inp.canvas = some c)
    (hd : inp.detector = true) (hr : v.readyState ≠ 0)
    (ho : inp.outcome = DetectOutcome.ok poses) :
    (detectPoses inp st).state.isPersonDetected = decide (0 < poses.length) ∧
    (detectPoses inp st).state.detectedPoses = poses := by
  obtain ⟨d, vid, cv, o⟩ := inp
  simp only at hv hc hd ho
  subst hv
  subst hc
  subst hd
  subst ho
  simp [detectPoses, hr]

/-- C7 witness: on a ready environment, an empty detector result turns
the flag off and a one-pose result turns it on, in the same tick. -/
theorem detectPoses_isPersonDetected_witness :
    (detectPoses ⟨true, some ⟨2, 640, 480⟩, some ⟨640, 480, true⟩,
        DetectOutcome.ok []⟩ initialARState).state.isPersonDetected = false ∧
    (detectPoses ⟨true, some ⟨2, 640, 480⟩, some ⟨640, 480, true⟩,
        DetectOutcome.ok [⟨[], none⟩]⟩ initialARState).state.isPersonDetected
      = true := by
  constructor
  · have h := (detectPoses_isPersonDetected
      ⟨true, some ⟨2, 640, 480⟩, some ⟨640, 480, true⟩, DetectOutcome.ok []⟩
      initialARState ⟨2, 640, 480⟩ ⟨640, 480, true⟩ []
      rfl rfl rfl (by decide) rfl).1
    simpa using h
  · have h := (detectPoses_isPersonDetected
      ⟨true, some ⟨2, 640, 480⟩, some ⟨640, 480, true⟩,
        DetectOutcome.ok [⟨[], none⟩]⟩
      initialARState ⟨2, 640, 480⟩ ⟨640, 480, true⟩ [⟨[], none⟩]
      rfl rfl rfl (by decide) rfl).1
    simpa using h

/-! ## C1: the mapper's transform formulas -/

lemma atan2_zero_of_nonneg (x : ℝ) (hx : 0 ≤ x) : atan2 0 x = 0 := by
  have hc : (⟨x, 0⟩ : ℂ) = (x : ℂ) := by
    apply Complex.ext <;> simp
  unfold atan2
  rw [hc]
  exact Complex.arg_ofReal_of_nonneg hx

/-- C1: whenever the mapper's confidence gate passes — both eyes and the
nose are found with truthy scores and both eye scores exceed 0.5 — the
produced transform is exactly the eye-midpoint position scaled by `K_X`
and `K_Y` (with the vertical sign flip), the eye-line angle
`atan2(Δy, Δx)` and the interocular distance divided by `K_SCALE`. -/
theorem updateGlassesTransform_formula (kps : List Keypoint) (w h : ℚ)
    (t : OverlayTransform) (leftEye rightEye nose : Keypoint)
    (hl : findKp kps "left_eye" = some leftEye)
    (hr : findKp kps "right_eye" = some rightEye)
    (hn : findKp kps "nose" = some nose)
    (hns : truthy nose.score = true)
    (hls : scoreGt leftEye.score (1/2) = true)
    (hrs : scoreGt rightEye.score (1/2) = true) :
    updateGlassesTransform kps w h t =
      { x := (((leftEye.x + rightEye.x) / 2 / w) * 2 - 1) * K_X,
        y := (-((leftEye.y + rightEye.y) / 2 / h) * 2 + 1) * K_Y,
        z := 0,
        rotationZ := atan2 ((rightEye.y : ℝ) - (leftEye.y : ℝ))
                           ((rightEye.x : ℝ) - (leftEye.x : ℝ)),
        scale := Real.sqrt (((rightEye.x : ℝ) - (leftEye.x : ℝ)) ^ 2 +
                            ((rightEye.y : ℝ) - (leftEye.y : ℝ)) ^ 2) /
                 (K_SCALE : ℝ) } := by
  have hne := findKp_ne_nil hl
  have h1 := truthy_of_scoreGt_half _ hls
  have h2 := truthy_of_scoreGt_half _ hrs
  simp only [updateGlassesTransform, hl, hr, hn, hne, if_false, h1, h2, hns,
    hls, hrs, Bool.and_self, Bool.true_and, Bool.and_true, if_true]

/-- An overlay transform to run the mapper against. -/
noncomputable def defaultTransform : OverlayTransform :=
  { x := 0, y := 0, z := 0, rotationZ := 0, scale := 1 }

/-- The spec's worked example: eyes at (100,200) and (200,200) with
score 0.9, nose present, on a 640x480 canvas. -/
def exampleEyesKps : List Keypoint :=
  [⟨"nose", 150, 195, some (9/10)⟩,
   ⟨"left_eye", 100, 200, some (9/10)⟩,
   ⟨"right_eye", 200, 200, some (9/10)⟩]

/-- C1 witness: on the spec's example the rotation is `atan2 0 100 = 0`
and the scale is `100 / K_SCALE`. -/
theorem updateGlassesTransform_formula_witness :
    (updateGlassesTransform exampleEyesKps 640 480 defaultTransform).rotationZ
        = 0 ∧
    (updateGlassesTransform exampleEyesKps 640 480 defaultTransform).scale
        = 100 / (K_SCALE : ℝ) := by
  have h := updateGlassesTransform_formula exampleEyesKps 640 480
    defaultTransform
    ⟨"left_eye", 100, 200, some (9/10)⟩
    ⟨"right_eye", 200, 200, some (9/10)⟩
    ⟨"nose", 150, 195, some (9/10)⟩
    rfl rfl rfl (by norm_num [truthy]) (by norm_num [scoreGt])
    (by norm_num [scoreGt])
  rw [h]
  have ey : ((200 : ℚ) : ℝ) - ((200 : ℚ) : ℝ) = 0 := by norm_num
  have ex : ((200 : ℚ) : ℝ) - ((100 : ℚ) : ℝ) = 100 := by norm_num
  constructor
  · show atan2 (((200 : ℚ) : ℝ) - ((200 : ℚ) : ℝ))
        (((200 : ℚ) : ℝ) - ((100 : ℚ) : ℝ)) = 0
    rw [ey, ex]
    exact atan2_zero_of_nonneg 100 (by norm_num)
  · show Real.sqrt ((((200 : ℚ) : ℝ) - ((100 : ℚ) : ℝ)) ^ 2 +
        (((200 : ℚ) : ℝ) - ((200 : ℚ) : ℝ)) ^ 2) / (K_SCALE : ℝ)
        = 100 / (K_SCALE : ℝ)
    rw [ey, ex]
    have : (100 : ℝ) ^ 2 + (0 : ℝ) ^ 2 = 100 ^ 2 := by norm_num
    rw [this, Real.sqrt_sq (by norm_num : (0 : ℝ) ≤ 100)]

/-! ## C3: low eye confidence keeps the previous transform -/

/-- C3: if the found left-eye or right-eye score is at most 0.5 the
mapper performs no update — the overlay transform after the call is the
transform before the call. -/
theorem updateGlassesTransform_noop_lowEye (kps : List Keypoint) (w h : ℚ)
    (t : OverlayTransform)
    (hlow : (∃ l v, findKp kps "left_eye" = some l ∧ l.score = some v ∧
              v ≤ 1/2) ∨
            (∃ r v, findKp kps "right_eye" = some r ∧ r.score = some v ∧
              v ≤ 1/2)) :
    updateGlassesTransform kps w h t = t := by
  apply updateGlassesTransform_noop
  intro l r n hl hr hn
  rcases hlow with ⟨l', v, hfind, hscore, hle⟩ | ⟨r', v, hfind, hscore, hle⟩
  · rw [hl] at hfind
    injection hfind with he
    subst he
    have hD : scoreGt l.score (1/2) = false := by
      rw [hscore]
      simp only [scoreGt, decide_eq_false_iff_not]
      exact not_lt.mpr hle
    rw [hD, Bool.and_false, Bool.false_and]
  · rw [hr] at hfind
    injection hfind with he
    subst he
    have hE : scoreGt r.score (1/2) = false := by
      rw [hscore]
      simp only [scoreGt, decide_eq_false_iff_not]
      exact not_lt.mpr hle
    rw [hE, Bool.and_false]

/-- C3 witness: with the left eye at score 0.4 the transform is kept. -/
theorem updateGlassesTransform_noop_lowEye_witness :
    updateGlassesTransform
      [⟨"nose", 150, 195, some (9/10)⟩,
       ⟨"left_eye", 100, 200, some (2/5)⟩,
       ⟨"right_eye", 200, 200, some (9/10)⟩] 640 480 defaultTransform
      = defaultTransform :=
  updateGlassesTransform_noop_lowEye _ 640 480 _
    (Or.inl ⟨⟨"left_eye", 100, 200, some (2/5)⟩, 2/5, rfl, rfl,
      by norm_num⟩)

/-! ## C10: the gate is stricter than the eye checks alone -/

/-- C10: the mapper's gate also requires the nose — a missing nose, a
nose with an undefined score, or a nose score of exactly 0 all leave the
previous transform in place, and an eye keypoint with an undefined score
never passes the gate either. -/
theorem updateGlassesTransform_nose_gate :
    (∀ (kps : List Keypoint) (w h : ℚ) (t : OverlayTransform),
        findKp kps "nose" = none → updateGlassesTransform kps w h t = t) ∧
    (∀ (kps : List Keypoint) (w h : ℚ) (t : OverlayTransform)
        (n : Keypoint), findKp kps "nose" = some n →
        n.score = none ∨ n.score = some 0 →
        updateGlassesTransform kps w h t = t) ∧
    (∀ (kps : List Keypoint) (w h : ℚ) (t : OverlayTransform)
        (l : Keypoint), findKp kps "left_eye" = some l → l.score = none →
        updateGlassesTransform kps w h t = t) ∧
    (∀ (kps : List Keypoint) (w h : ℚ) (t : OverlayTransform)
        (r : Keypoint), findKp kps "right_eye" = some r → r.score = none →
        updateGlassesTransform kps w h t = t) := by
  refine ⟨?_, ?_, ?_, ?_⟩
  · intro kps w h t hnone
    apply updateGlassesTransform_noop
    intro l r n _ _ hn
    rw [hnone] at hn
    cases hn
  · intro kps w h t n hfind hbad
    apply updateGlassesTransform_noop
    intro l r n' _ _ hn
    rw [hfind] at hn
    injection hn with he
    subst he
    rcases hbad with hb | hb <;> simp [truthy, hb]
  · intro kps w h t l hfind hnone
    apply updateGlassesTransform_noop
    intro l' r n hl _ _
    rw [hfind] at hl
    injection hl with he
    subst he
    simp [truthy, hnone]
  · intro kps w h t r hfind hnone
    apply updateGlassesTransform_noop
    intro l r' n _ hr _
    rw [hfind] at hr
    injection hr with he
    subst he
    simp [truthy, hnone]

end ARPose
